import Mathlib

/-!
Formal model of the caching and authentication-resolution layer of the
helia-blog-backend repository (Node/Express/TypeScript), together with proofs
about the behaviour of that code.

Each definition is a shallow embedding of a concrete piece of the source:

* `Cache.MemoryCache` — `src/utils/cache.ts` (the in-memory TTL cache);
  time is modelled as an explicit `Int` of milliseconds (`Date.now()`), and
  the `Map` as an association list with the same lookup/replace/delete
  observables.
* `AuthMiddleware` — the cache-backed `verifyJWT` middleware
  (`src/middleware/auth-middleware.ts`), the identity resolver of the spec.
* `RoleAuth` — the second auth middleware file exporting `verifyJWT` and
  `requireRoles` (header-preferring variant).
* `Codec` — the JWT sign/verify pair; the `jsonwebtoken` library is an
  external dependency, so this component is modelled from the spec (§4.2).
* `BlogRoutes` — the `GET /api/blogs/:id` detail handler of
  `src/routes/blog.ts` (cache-hit and cache-miss paths), over a functional
  record store.

JavaScript string operations used by the code (`split(" ")`, `startsWith`,
`substring`, `slice(-10)`) are embedded as structurally recursive functions
over `String.data`, so that all definitions evaluate by `decide`/`rfl`.
-/

namespace Cache

/-- Entry of the in-memory cache (`src/utils/cache.ts`): a stored value and
its absolute expiry instant `Date.now() + ttlSeconds * 1000`. -/
structure CacheEntry (α : Type) where
  value : α
  expiry : Int
deriving DecidableEq, Repr

/-- The `MemoryCache` class of `src/utils/cache.ts`. The private
`Map<string, CacheEntry>` is modelled as an association list; `set` replaces
any previous binding of the key, so keys are unique, and lookup, delete,
clear and size agree with the `Map` observables. -/
structure MemoryCache (α : Type) where
  entries : List (String × CacheEntry α)
deriving DecidableEq, Repr

/-- The freshly constructed cache (`new MemoryCache()`). -/
def MemoryCache.empty (α : Type) : MemoryCache α := ⟨[]⟩

/-- Method `set(key, value, ttlSeconds)` at instant `now`: stores
`{ value, expiry: Date.now() + ttlSeconds * 1000 }` (cache.ts lines 20-22). -/
def MemoryCache.set {α : Type} (c : MemoryCache α) (key : String) (value : α)
    (ttlSeconds : Int) (now : Int) : MemoryCache α :=
  ⟨(key, ⟨value, now + ttlSeconds * 1000⟩) :: c.entries.filter (fun p => p.1 != key)⟩

/-- The auto-cleanup timer scheduled by `set` (cache.ts lines 24-29): a
`setTimeout` delay of `ttlSeconds * 1000` is scheduled only when
`ttlSeconds > 0`. -/
def MemoryCache.setTimerDelay (ttlSeconds : Int) : Option Int :=
  if ttlSeconds > 0 then some (ttlSeconds * 1000) else none

/-- Method `delete(key)` (cache.ts lines 53-55). -/
def MemoryCache.deleteKey {α : Type} (c : MemoryCache α) (key : String) : MemoryCache α :=
  ⟨c.entries.filter (fun p => p.1 != key)⟩

/-- Method `get(key)` at instant `now` (cache.ts lines 37-47): returns `null` when
the entry is missing or `entry.expiry < Date.now()`, deleting the entry in
the found-but-expired case; otherwise returns the value. The pair carries
the returned value and the cache state after the call. -/
def MemoryCache.get {α : Type} (c : MemoryCache α) (key : String) (now : Int) :
    Option α × MemoryCache α :=
  match c.entries.lookup key with
  | none => (none, c)
  | some entry =>
    if entry.expiry < now then (none, c.deleteKey key) else (some entry.value, c)

/-- Method `deleteIfExpired(key)` at instant `now` (cache.ts lines 61-66), the body
of the scheduled timer. -/
def MemoryCache.deleteIfExpired {α : Type} (c : MemoryCache α) (key : String)
    (now : Int) : MemoryCache α :=
  match c.entries.lookup key with
  | none => c
  | some entry => if entry.expiry < now then c.deleteKey key else c

/-- Method `clear()` (cache.ts lines 71-73). -/
def MemoryCache.clear {α : Type} (_c : MemoryCache α) : MemoryCache α := ⟨[]⟩

/-- Method `size()` (cache.ts lines 78-80). -/
def MemoryCache.size {α : Type} (c : MemoryCache α) : Nat := c.entries.length

theorem lookup_filter_ne_self {β : Type} (l : List (String × β)) (k : String) :
    (l.filter (fun p => p.1 != k)).lookup k = none := by
  induction l with
  | nil => rfl
  | cons p l ih =>
    by_cases hp : p.1 = k
    · simp [List.filter, hp, ih]
    · have hb : (p.1 != k) = true := by simp [bne_iff_ne, hp]
      have hk : (k == p.1) = false := by
        simp [beq_eq_false_iff_ne]
        exact fun h => hp h.symm
      simp [List.filter, hb, List.lookup, hk, ih]

theorem lookup_set_self {α : Type} (c : MemoryCache α) (k : String) (v : α)
    (t now : Int) :
    (c.set k v t now).entries.lookup k = some ⟨v, now + t * 1000⟩ := by
  simp [MemoryCache.set, List.lookup]

/-- Characterisation of a `get` on a key just written by `set`: the value is
returned exactly while `now' ≤ now + t * 1000`, and past that instant the
entry is lazily deleted. -/
theorem get_set_self {α : Type} (c : MemoryCache α) (k : String) (v : α)
    (t now now' : Int) :
    (c.set k v t now).get k now' =
      if now + t * 1000 < now' then (none, (c.set k v t now).deleteKey k)
      else (some v, c.set k v t now) := by
  simp only [MemoryCache.get, lookup_set_self]

theorem lookup_deleteKey_self {α : Type} (c : MemoryCache α) (k : String) :
    (c.deleteKey k).entries.lookup k = none := by
  simp [MemoryCache.deleteKey, lookup_filter_ne_self]

end Cache

namespace Js

/-- JavaScript `s.split(" ")` on the character list of a string: splits at
every single space, keeping empty segments, as `Array.prototype.split` with
a one-character separator does. -/
def splitSp : List Char → List (List Char)
  | [] => [[]]
  | c :: cs =>
    if c = ' ' then [] :: splitSp cs
    else
      match splitSp cs with
      | [] => [[c]]
      | g :: gs => (c :: g) :: gs

/-- JavaScript `s.startsWith(pre)`. -/
def jsStartsWith (s pre : String) : Bool := pre.data.isPrefixOf s.data

/-- JavaScript `s.split(" ")[1]`, with the out-of-range `undefined` collapsed
to `""` (both are falsy, which is the only way the middleware inspects the
result). -/
def splitSpaceGet1 (s : String) : String :=
  match splitSp s.data with
  | _ :: second :: _ => ⟨second⟩
  | _ => ""

/-- JavaScript `s.substring(n)`. -/
def substringFrom (n : Nat) (s : String) : String := ⟨s.data.drop n⟩

theorem splitSp_no_space : ∀ (cs : List Char), ' ' ∉ cs → splitSp cs = [cs]
  | [], _ => rfl
  | c :: cs, h => by
    have hc : ¬ c = ' ' := fun hc => h (hc ▸ List.mem_cons_self c cs)
    have ih := splitSp_no_space cs (fun hm => h (List.mem_cons_of_mem c hm))
    simp [splitSp, hc, ih]

theorem splitSp_append_space :
    ∀ (l r : List Char), ' ' ∉ l → splitSp (l ++ ' ' :: r) = l :: splitSp r
  | [], r, _ => by simp [splitSp]
  | c :: l, r, h => by
    have hc : ¬ c = ' ' := fun hc => h (hc ▸ List.mem_cons_self c l)
    have ih := splitSp_append_space l r (fun hm => h (List.mem_cons_of_mem c hm))
    simp [splitSp, hc, ih]

theorem isPrefixOf_append_right (l r : List Char) : l.isPrefixOf (l ++ r) = true := by
  induction l with
  | nil => simp [List.isPrefixOf]
  | cons a as ih => simp [List.isPrefixOf, ih]

theorem data_bearer_append (t : String) :
    ("Bearer " ++ t).data = "Bearer".data ++ ' ' :: t.data := rfl

theorem jsStartsWith_bearer (t : String) :
    jsStartsWith ("Bearer " ++ t) "Bearer " = true := by
  have : ("Bearer " ++ t).data = "Bearer ".data ++ t.data := rfl
  simp [jsStartsWith, this, isPrefixOf_append_right]

theorem splitSpaceGet1_bearer (t : String) (hns : ' ' ∉ t.data) :
    splitSpaceGet1 ("Bearer " ++ t) = t := by
  have hb : ' ' ∉ "Bearer".data := by decide
  unfold splitSpaceGet1
  rw [data_bearer_append, splitSp_append_space _ _ hb, splitSp_no_space _ hns]

theorem substringFrom7_bearer (t : String) :
    substringFrom 7 ("Bearer " ++ t) = t := by
  have h : ("Bearer " ++ t).data = "Bearer ".data ++ t.data := rfl
  have h7 : "Bearer ".data.length = 7 := by decide
  simp [substringFrom, h, List.drop_append_of_le_length, h7]

end Js

/-- The identity payload carried by sessions, tokens and the token cache:
`{ username, id }` (`AdminPayload` in the auth middleware and auth routes). -/
structure AdminPayload where
  username : String
  id : String
deriving DecidableEq, Repr

namespace AuthMiddleware

open Cache Js

/-- Constant `TOKEN_CACHE_TTL = 300` seconds (auth-middleware line 7). -/
def TOKEN_CACHE_TTL : Int := 300

/-- Function `getTokenCacheKey` (auth-middleware lines 20-24): the key is built from
`token.slice(-10)`, the last 10 characters of the token only. -/
def getTokenCacheKey (token : String) : String :=
  "jwt_token_" ++ token.takeRight 10

/-- The credential sources of one request, as the middleware reads them:
`req.session.admin` (the session object itself is always installed by
`server.ts`), `req.signedCookies.admin_token`, and
`req.headers.authorization`. -/
structure Req where
  sessionAdmin : Option AdminPayload
  signedCookieAdminToken : Option String
  authorizationHeader : Option String
deriving DecidableEq, Repr

/-- One structured error response `res.status(status).json({ success: false,
error: { code, message } })`. -/
structure ErrResponse where
  status : Nat
  code : String
  message : String
deriving DecidableEq, Repr

/-- Response 401 of the no-credential branches ("Authentication required"). -/
def unauthorizedRequired : ErrResponse := ⟨401, "UNAUTHORIZED", "Authentication required"⟩

/-- Response 401 of the invalid-token branches ("Invalid authentication token"). -/
def unauthorizedInvalid : ErrResponse := ⟨401, "UNAUTHORIZED", "Invalid authentication token"⟩

/-- Observable outcome of one run of the middleware: the error response if
one was sent (`none` means `next()` was called), the `req.admin` attached,
the session's admin field afterwards, the token cache afterwards, and the
audit traces of which cache keys were looked up and which tokens were
passed to `jwt.verify`. -/
structure MwOutcome where
  response : Option ErrResponse
  admin : Option AdminPayload
  sessionAdmin : Option AdminPayload
  cache : MemoryCache AdminPayload
  cacheLookups : List String
  verifiedTokens : List String
deriving DecidableEq, Repr

/-- The token-resolution block the middleware runs for a candidate token
(duplicated verbatim in the source for the header token, lines 112-145, and
the cookie token, lines 148-178): check the cache under
`getTokenCacheKey token`; on a hit attach and back-fill the session; on a
miss call `jwt.verify` (`verify token = none` models the throw caught at
line 179), cache and attach on success, 401 on failure. -/
def resolveWithCache (verify : String → Option AdminPayload) (token : String)
    (cache : MemoryCache AdminPayload) (now : Int) : MwOutcome :=
  let cacheKey := getTokenCacheKey token
  let res := cache.get cacheKey now
  match res.1 with
  | some cachedPayload =>
    { response := none, admin := some cachedPayload, sessionAdmin := some cachedPayload,
      cache := res.2, cacheLookups := [cacheKey], verifiedTokens := [] }
  | none =>
    match verify token with
    | some payload =>
      { response := none, admin := some payload, sessionAdmin := some payload,
        cache := res.2.set cacheKey payload TOKEN_CACHE_TTL now,
        cacheLookups := [cacheKey], verifiedTokens := [token] }
    | none =>
      { response := some unauthorizedInvalid, admin := none, sessionAdmin := none,
        cache := res.2, cacheLookups := [cacheKey], verifiedTokens := [token] }

/-- The `verifyJWT` middleware of `src/middleware/auth-middleware.ts`
(lines 31-146 of that file): session short-circuit first; else the signed
`admin_token` cookie (JavaScript truthiness: an empty-string cookie counts
as absent); else the `Authorization: Bearer` header, whose token is
`auth.split(" ")[1]`; `verify` stands for `jwt.verify` with the process-wide
secret, returning `none` when it would throw. -/
def verifyJWT (verify : String → Option AdminPayload) (req : Req)
    (cache : MemoryCache AdminPayload) (now : Int) : MwOutcome :=
  match req.sessionAdmin with
  | some admin =>
    { response := none, admin := some admin, sessionAdmin := some admin,
      cache := cache, cacheLookups := [], verifiedTokens := [] }
  | none =>
    let headerPath : MwOutcome :=
      match req.authorizationHeader with
      | none =>
        { response := some unauthorizedRequired, admin := none, sessionAdmin := none,
          cache := cache, cacheLookups := [], verifiedTokens := [] }
      | some auth =>
        if jsStartsWith auth "Bearer " then
          let headerToken := splitSpaceGet1 auth
          if headerToken = "" then
            { response := some unauthorizedInvalid, admin := none, sessionAdmin := none,
              cache := cache, cacheLookups := [], verifiedTokens := [] }
          else resolveWithCache verify headerToken cache now
        else
          { response := some unauthorizedRequired, admin := none, sessionAdmin := none,
            cache := cache, cacheLookups := [], verifiedTokens := [] }
    match req.signedCookieAdminToken with
    | none => headerPath
    | some token =>
      if token = "" then headerPath
      else resolveWithCache verify token cache now

end AuthMiddleware

namespace RoleAuth

open Js

/-- Payload decoded by the second middleware's `jwt.verify`; its
`requireRoles` reads a dynamic `role` field off the decoded object
(`admin.role`), which the declared `AuthPayload` interface does not carry,
so the field is optional here. -/
structure AuthPayload where
  id : String
  username : String
  role : Option String
deriving DecidableEq, Repr

/-- Outcome of the header-preferring `verifyJWT` middleware: `next` with the
attached admin, or an error response `res.status(status).json({ success:
false, error })`. -/
inductive Outcome where
  | next (admin : AuthPayload)
  | rejected (status : Nat) (error : String)
deriving DecidableEq, Repr

/-- The second `verifyJWT` middleware (the auth middleware file that also
exports `requireRoles`): takes the token from the `Authorization` header
when it starts with `"Bearer "` (via `substring(7)`), else from the signed
`admin_token` cookie; 401 when the token is missing or empty (JavaScript
truthiness of `!token`); `verify` stands for `jwt.verify` with
`process.env.JWT_SECRET || "secret"`, `none` modelling its throw. -/
def verifyJWT (verify : String → Option AuthPayload)
    (authorizationHeader signedCookieAdminToken : Option String) : Outcome :=
  let token : Option String :=
    match authorizationHeader with
    | some auth =>
      if jsStartsWith auth "Bearer " then some (substringFrom 7 auth)
      else signedCookieAdminToken
    | none => signedCookieAdminToken
  match token with
  | none => .rejected 401 "Authentication required"
  | some t =>
    if t = "" then .rejected 401 "Authentication required"
    else
      match verify t with
      | some decoded => .next decoded
      | none => .rejected 401 "Invalid or expired authentication token"

/-- Factory `requireRoles(allowedRoles)` of the same file: first runs `verifyJWT`
(whose error responses stand as they are — the callback is only reached on
success); then computes `admin.role || "admin"` (an absent or empty role
falls back to `"admin"`), allowing the request through when that role is in
`allowedRoles` and answering 403 otherwise. -/
def requireRoles (allowedRoles : List String)
    (verify : String → Option AuthPayload)
    (authorizationHeader signedCookieAdminToken : Option String) : Outcome :=
  match verifyJWT verify authorizationHeader signedCookieAdminToken with
  | .rejected s e => .rejected s e
  | .next admin =>
    let role :=
      match admin.role with
      | some r => if r = "" then "admin" else r
      | none => "admin"
    if allowedRoles.contains role then .next admin
    else .rejected 403 "Insufficient permissions to access this resource"

end RoleAuth

namespace Codec

/-- Modelled from the spec: the credential codec (§4.2) is realised by the
external `jsonwebtoken` library, whose source is not part of this
repository; only its callers are. A signed token embeds the identity
payload, the absolute expiry instant `now + ttl`, and the secret it was
signed with; `verify` rejects a token signed with a different secret as
`InvalidToken` and a correctly signed token at or past its expiry as
`ExpiredToken`, and otherwise returns the payload unchanged. -/
structure SignedToken where
  payload : AdminPayload
  exp : Int
  secret : String
deriving DecidableEq, Repr

/-- Failure modes of `verify` (§4.2 / §7 taxonomy). -/
inductive VerifyError where
  | invalidToken
  | expiredToken
deriving DecidableEq, Repr

/-- Modelled from the spec: `issue(payload, ttl)` — `jwt.sign(payload,
secret, { expiresIn: ttl })` at instant `now` (the login route signs with
`expiresIn: "30m"`). -/
def issue (payload : AdminPayload) (secret : String) (ttl : Int) (now : Int) :
    SignedToken :=
  ⟨payload, now + ttl, secret⟩

/-- Modelled from the spec: `verify(token)` at instant `now` against
`secret`. -/
def verify (t : SignedToken) (secret : String) (now : Int) :
    Except VerifyError AdminPayload :=
  if t.secret ≠ secret then .error .invalidToken
  else if now ≥ t.exp then .error .expiredToken
  else .ok t.payload

/-- The secret the login route signs with: `process.env.JWT_SECRET ||
"secret_key"` (`src/routes/admin-auth.js` line 71). JavaScript `||` falls
back on every falsy value, so an empty-string environment secret also
yields `"secret_key"`. -/
def loginJwtSecret (envJwtSecret : Option String) : String :=
  match envJwtSecret with
  | some s => if s = "" then "secret_key" else s
  | none => "secret_key"

/-- The secret the cache-backed middleware verifies with:
`process.env.JWT_SECRET!` (auth-middleware; the non-null assertion means the
environment value is used as is). -/
def middlewareJwtSecret (envJwtSecret : Option String) : Option String :=
  envJwtSecret

end Codec

namespace BlogRoutes

open Cache

/-- A row of the `blogs` table as the detail route observes it: the primary
key, the moderation status, and the `views` counter (the remaining columns
play no part in the claims about this handler). -/
structure BlogRecord where
  id : String
  status : String
  views : Int
deriving DecidableEq, Repr

/-- The record store: the `blogs` table as a list of rows. -/
abbrev Store := List BlogRecord

/-- Constant `POST_CACHE_TTL = 60` seconds (blog.ts line 16). -/
def POST_CACHE_TTL : Int := 60

/-- Function `getBlogPostCacheKey` (blog.ts lines 44-46). -/
def getBlogPostCacheKey (id : String) : String := "blog_post_" ++ id

/-- Statement `UPDATE blogs SET views = views + 1 WHERE id = ...` (the
`tx.update(blogs).set({ views: sql views + 1 }).where(eq(blogs.id, id))`
statement). -/
def incrementViews (s : Store) (id : String) : Store :=
  s.map fun r => if r.id = id then { r with views := r.views + 1 } else r

/-- Query `SELECT * FROM blogs WHERE id = ... AND status = 'approved' LIMIT 1`
(the `db.select().from(blogs).where(and(eq(blogs.id, id), eq(blogs.status,
"approved"))).limit(1)` query). -/
def selectApproved (s : Store) (id : String) : Option BlogRecord :=
  s.find? fun r => r.id == id && r.status == "approved"

/-- Response of `GET /api/blogs/:id`. -/
inductive DetailResponse where
  | ok (record : BlogRecord)
  | notFound
deriving DecidableEq, Repr

/-- The database interactions of the cache-miss path (blog.ts lines
181-196): the handler runs `db.transaction` containing only the views
increment, and only afterwards issues the select as a separate query, so
store mutations committed by other clients between the two commands are
visible to the select; `interference` is the mutation committed by others
in that window (`fun st => st` when no other client intervenes). -/
def missIncrementThenRead (s : Store) (id : String)
    (interference : Store → Store) : Store × Option BlogRecord :=
  let s1 := incrementViews s id
  let s2 := interference s1
  (s2, selectApproved s2 id)

/-- The miss path the spec mandates (§4.4, §5), stated from the spec's words
for comparison: increment and read in one transaction, atomic with respect
to other incrementers — no other commit can intervene between the two. -/
def specSingleTxIncrementThenRead (s : Store) (id : String) :
    Store × Option BlogRecord :=
  let s1 := incrementViews s id
  (s1, selectApproved s1 id)

/-- The full cache-miss branch of `GET /api/blogs/:id` (blog.ts lines
179-218), without concurrent interference: increment the counter (its own
transaction), select the approved row, answer 404 when the select returns
nothing, otherwise populate the cache and answer with the row. Returns the
store, the cache and the response. -/
def getByIdMiss (s : Store) (cache : MemoryCache BlogRecord) (id : String)
    (now : Int) : Store × MemoryCache BlogRecord × DetailResponse :=
  let dbres := missIncrementThenRead s id (fun st => st)
  match dbres.2 with
  | none => (dbres.1, cache, .notFound)
  | some r => (dbres.1, cache.set (getBlogPostCacheKey id) r POST_CACHE_TTL now, .ok r)

/-- Result of the cache-hit branch: the response sent, the cache state at the
moment the response is sent, and the store and cache after the background
refresh completes. -/
structure HitResult where
  response : DetailResponse
  cacheAtRespond : MemoryCache BlogRecord
  storeAfter : Store
  cacheAfter : MemoryCache BlogRecord
deriving DecidableEq, Repr

/-- The cache-hit branch of `GET /api/blogs/:id` (blog.ts lines 141-177):
respond immediately with the cached record and `views: cachedBlog.views + 1`
(no cache write happens before `res.json`), then run the background
`db.transaction` that increments the counter and re-reads the approved row
inside the same transaction, overwriting the cache entry with the re-read
row when one is found. -/
def getByIdHit (s : Store) (cache : MemoryCache BlogRecord)
    (cachedBlog : BlogRecord) (id : String) (now : Int) : HitResult :=
  let resp := DetailResponse.ok { cachedBlog with views := cachedBlog.views + 1 }
  let s1 := incrementViews s id
  match selectApproved s1 id with
  | some updated =>
    ⟨resp, cache, s1, cache.set (getBlogPostCacheKey id) updated POST_CACHE_TTL now⟩
  | none => ⟨resp, cache, s1, cache⟩

end BlogRoutes

open Cache

/-- Claim C2, counterexample: the claim says an entry is never returned once
`now >= expiresAt`, but the code's expiry test is strict
(`entry.expiry < Date.now()`), so at the exact expiry instant the value is
still returned. Concretely, after `set("x", 42, 1)` at time 0 the expiry is
1000, and `get("x")` at time 1000 — where `now ≥ expiresAt` — still returns
42 and leaves the entry in place. -/
theorem cache_get_at_expiry_instant_returns_value :
    (1000 : Int) ≥ 0 + 1 * 1000 ∧
    (((MemoryCache.empty Nat).set "x" 42 1 0).get "x" 1000).1 = some 42 ∧
    (((MemoryCache.empty Nat).set "x" 42 1 0).get "x" 1000).1 ≠ none := by
  refine ⟨by decide, ?_, ?_⟩ <;> decide

/-- Claim C2, amended: for every key `k`, value `v` and ttl `t > 0`, `get(k)`
immediately after `set(k, v, t)` returns `v`; `get(k)` returns the stored
value iff `now ≤ expiresAt` (with `expiresAt` = set-time + `t`·1000), i.e.
it returns absent only once `now` is strictly past `expiresAt`, and in that
case it also removes the expired entry as a side effect. -/
theorem cache_set_get_expiry_amended {α : Type} (c : MemoryCache α)
    (k : String) (v : α) (t now now' : Int) (ht : 0 < t) :
    (((c.set k v t now).get k now).1 = some v) ∧
    (now' ≤ now + t * 1000 → ((c.set k v t now).get k now').1 = some v) ∧
    (now + t * 1000 < now' →
      ((c.set k v t now).get k now').1 = none ∧
      ((c.set k v t now).get k now').2.entries.lookup k = none) := by
  refine ⟨?_, ?_, ?_⟩
  · rw [get_set_self]
    have : ¬ (now + t * 1000 < now) := by omega
    simp [this]
  · intro h
    rw [get_set_self]
    have : ¬ (now + t * 1000 < now') := by omega
    simp [this]
  · intro h
    rw [get_set_self]
    simp [h, lookup_deleteKey_self]

/-- Claim C2, amended, witness at `k = "x"`, `v = 42`, `t = 1`, set-time 0,
read times 1000 (boundary, still fresh) and 1001 (expired and removed). -/
theorem cache_set_get_expiry_amended_witness :
    ((((MemoryCache.empty Nat).set "x" 42 1 0).get "x" 0).1 = some 42) ∧
    ((((MemoryCache.empty Nat).set "x" 42 1 0).get "x" 1000).1 = some 42) ∧
    ((((MemoryCache.empty Nat).set "x" 42 1 0).get "x" 1001).1 = none) :=
  ⟨(cache_set_get_expiry_amended (MemoryCache.empty Nat) "x" 42 1 0 1000 (by decide)).1,
   (cache_set_get_expiry_amended (MemoryCache.empty Nat) "x" 42 1 0 1000 (by decide)).2.1
     (by decide),
   ((cache_set_get_expiry_amended (MemoryCache.empty Nat) "x" 42 1 0 1001 (by decide)).2.2
     (by decide)).1⟩

/-- Claim C3, counterexample: an entry stored with ttl 0 at time 0 is not
immortal — its expiry equals the set instant, so a `get` at any strictly
later time (here time 1) returns absent rather than the stored value. -/
theorem cache_zero_ttl_expires_counterexample :
    (((MemoryCache.empty Nat).set "x" 42 0 0).get "x" 1).1 = none ∧
    (((MemoryCache.empty Nat).set "x" 42 0 0).get "x" 1).1 ≠ some 42 := by
  constructor <;> decide

/-- Claim C3, amended: an entry stored with non-positive ttl `t` is not
immortal; it is subject to the same lazy expiry as any other entry — the
value is returned only while `now ≤ set-time + t·1000`, so every `get`
strictly after the set instant (and, for `t < 0`, even at it) returns
absent. Non-positive ttl only means that no proactive eviction timer is
scheduled by `set`. -/
theorem cache_nonpositive_ttl_amended {α : Type} (c : MemoryCache α)
    (k : String) (v : α) (t now now' : Int) (ht : t ≤ 0) :
    (now < now' → ((c.set k v t now).get k now').1 = none) ∧
    (t < 0 → now ≤ now' → ((c.set k v t now).get k now').1 = none) ∧
    (now' ≤ now + t * 1000 → ((c.set k v t now).get k now').1 = some v) ∧
    MemoryCache.setTimerDelay t = none := by
  refine ⟨?_, ?_, ?_, ?_⟩
  · intro h
    rw [get_set_self]
    have : now + t * 1000 < now' := by omega
    simp [this]
  · intro hneg h
    rw [get_set_self]
    have : now + t * 1000 < now' := by omega
    simp [this]
  · intro h
    rw [get_set_self]
    have : ¬ (now + t * 1000 < now') := by omega
    simp [this]
  · simp [MemoryCache.setTimerDelay]
    omega

/-- Claim C3, amended, witness: with ttl 0 at set-time 0 a read at time 1
returns absent while a read at the set instant itself still returns the
value; with ttl -1 even the read at the set instant returns absent; and no
timer is scheduled in either case. -/
theorem cache_nonpositive_ttl_amended_witness :
    ((((MemoryCache.empty Nat).set "x" 42 0 0).get "x" 1).1 = none) ∧
    ((((MemoryCache.empty Nat).set "x" 42 0 0).get "x" 0).1 = some 42) ∧
    ((((MemoryCache.empty Nat).set "x" 42 (-1) 0).get "x" 0).1 = none) ∧
    MemoryCache.setTimerDelay 0 = none ∧
    MemoryCache.setTimerDelay (-1) = none :=
  ⟨(cache_nonpositive_ttl_amended (MemoryCache.empty Nat) "x" 42 0 0 1 (by decide)).1
     (by decide),
   (cache_nonpositive_ttl_amended (MemoryCache.empty Nat) "x" 42 0 0 0 (by decide)).2.2.1
     (by decide),
   (cache_nonpositive_ttl_amended (MemoryCache.empty Nat) "x" 42 (-1) 0 0 (by decide)).2.1
     (by decide) (by decide),
   (cache_nonpositive_ttl_amended (MemoryCache.empty Nat) "x" 42 0 0 0 (by decide)).2.2.2,
   (cache_nonpositive_ttl_amended (MemoryCache.empty Nat) "x" 42 (-1) 0 0 (by decide)).2.2.2⟩

namespace AuthMiddleware

open Cache Js

theorem resolveWithCache_response_cases (verify : String → Option AdminPayload)
    (token : String) (cache : MemoryCache AdminPayload) (now : Int) :
    (resolveWithCache verify token cache now).response = none ∨
    (resolveWithCache verify token cache now).response = some unauthorizedInvalid := by
  unfold resolveWithCache
  rcases h1 : (cache.get (getTokenCacheKey token) now).1 with _ | p
  · rcases h2 : verify token with _ | q <;> simp [h1, h2]
  · simp [h1]

theorem verifyJWT_response_cases (verify : String → Option AdminPayload)
    (req : Req) (cache : MemoryCache AdminPayload) (now : Int) :
    (verifyJWT verify req cache now).response = none ∨
    (verifyJWT verify req cache now).response = some unauthorizedRequired ∨
    (verifyJWT verify req cache now).response = some unauthorizedInvalid := by
  rcases req with ⟨sess, ck, hd⟩
  cases sess with
  | some p => simp [verifyJWT]
  | none =>
    have hpath : ∀ c' : MemoryCache AdminPayload,
        (match hd with
          | none =>
            ({ response := some unauthorizedRequired, admin := none, sessionAdmin := none,
               cache := c', cacheLookups := [], verifiedTokens := [] } : MwOutcome)
          | some auth =>
            if jsStartsWith auth "Bearer " then
              let headerToken := splitSpaceGet1 auth
              if headerToken = "" then
                { response := some unauthorizedInvalid, admin := none, sessionAdmin := none,
                  cache := c', cacheLookups := [], verifiedTokens := [] }
              else resolveWithCache verify headerToken c' now
            else
              { response := some unauthorizedRequired, admin := none, sessionAdmin := none,
                cache := c', cacheLookups := [], verifiedTokens := [] }).response = none ∨
        (match hd with
          | none =>
            ({ response := some unauthorizedRequired, admin := none, sessionAdmin := none,
               cache := c', cacheLookups := [], verifiedTokens := [] } : MwOutcome)
          | some auth =>
            if jsStartsWith auth "Bearer " then
              let headerToken := splitSpaceGet1 auth
              if headerToken = "" then
                { response := some unauthorizedInvalid, admin := none, sessionAdmin := none,
                  cache := c', cacheLookups := [], verifiedTokens := [] }
              else resolveWithCache verify headerToken c' now
            else
              { response := some unauthorizedRequired, admin := none, sessionAdmin := none,
                cache := c', cacheLookups := [], verifiedTokens := [] }).response = some unauthorizedRequired ∨
        (match hd with
          | none =>
            ({ response := some unauthorizedRequired, admin := none, sessionAdmin := none,
               cache := c', cacheLookups := [], verifiedTokens := [] } : MwOutcome)
          | some auth =>
            if jsStartsWith auth "Bearer " then
              let headerToken := splitSpaceGet1 auth
              if headerToken = "" then
                { response := some unauthorizedInvalid, admin := none, sessionAdmin := none,
                  cache := c', cacheLookups := [], verifiedTokens := [] }
              else resolveWithCache verify headerToken c' now
            else
              { response := some unauthorizedRequired, admin := none, sessionAdmin := none,
                cache := c', cacheLookups := [], verifiedTokens := [] }).response = some unauthorizedInvalid := by
      intro c'
      cases hd with
      | none => simp
      | some auth =>
        by_cases hs : jsStartsWith auth "Bearer "
        · by_cases he : splitSpaceGet1 auth = ""
          · simp [hs, he]
          · simp only [hs, he, if_true, if_false]
            rcases resolveWithCache_response_cases verify (splitSpaceGet1 auth) c' now with h | h
            · exact Or.inl h
            · exact Or.inr (Or.inr h)
        · simp [hs]
    cases ck with
    | none => simpa [verifyJWT] using hpath cache
    | some tok =>
      by_cases htok : tok = ""
      · simpa [verifyJWT, htok] using hpath cache
      · simp only [verifyJWT, htok, if_false]
        rcases resolveWithCache_response_cases verify tok cache now with h | h
        · exact Or.inl h
        · exact Or.inr (Or.inr h)

end AuthMiddleware

/-- Claim C1: the identity resolver checks its credential sources in the
order session, then signed cookie, then Authorization bearer header. A
payload already in the session is returned as the resolved identity with no
cache lookup, no `jwt.verify` call and no cache change, and independently
of whatever cookie and header the request carries (they are quantified and
absent from the result). When the session is empty but a non-empty signed
`admin_token` cookie is present, the outcome equals the outcome with the
header removed, and is exactly the token-resolution of the cookie's token —
the header is never consulted. -/
theorem resolver_precedence_session_cookie_header
    (verify : String → Option AdminPayload) (p : AdminPayload)
    (ck hd : Option String) (cache : Cache.MemoryCache AdminPayload)
    (now : Int) (t : String) (ht : t ≠ "") :
    AuthMiddleware.verifyJWT verify ⟨some p, ck, hd⟩ cache now =
      ⟨none, some p, some p, cache, [], []⟩ ∧
    AuthMiddleware.verifyJWT verify ⟨none, some t, hd⟩ cache now =
      AuthMiddleware.verifyJWT verify ⟨none, some t, none⟩ cache now ∧
    AuthMiddleware.verifyJWT verify ⟨none, some t, hd⟩ cache now =
      AuthMiddleware.resolveWithCache verify t cache now := by
  refine ⟨rfl, ?_, ?_⟩ <;> simp [AuthMiddleware.verifyJWT, ht]

/-- Claim C1, witness: a concrete request carrying all three credential
sources resolves to the session payload untouched, and with the session
empty the cookie token wins over the bearer header. -/
theorem resolver_precedence_session_cookie_header_witness :
    AuthMiddleware.verifyJWT (fun _ => none) ⟨some ⟨"admin", "1"⟩, some "ck", some "Bearer hd"⟩
      (Cache.MemoryCache.empty AdminPayload) 0 =
      ⟨none, some ⟨"admin", "1"⟩, some ⟨"admin", "1"⟩,
       Cache.MemoryCache.empty AdminPayload, [], []⟩ ∧
    AuthMiddleware.verifyJWT (fun _ => none) ⟨none, some "ck", some "Bearer hd"⟩
      (Cache.MemoryCache.empty AdminPayload) 0 =
      AuthMiddleware.verifyJWT (fun _ => none) ⟨none, some "ck", none⟩
        (Cache.MemoryCache.empty AdminPayload) 0 ∧
    AuthMiddleware.verifyJWT (fun _ => none) ⟨none, some "ck", some "Bearer hd"⟩
      (Cache.MemoryCache.empty AdminPayload) 0 =
      AuthMiddleware.resolveWithCache (fun _ => none) "ck"
        (Cache.MemoryCache.empty AdminPayload) 0 :=
  resolver_precedence_session_cookie_header (fun _ => none) ⟨"admin", "1"⟩
    (some "ck") (some "Bearer hd") (Cache.MemoryCache.empty AdminPayload) 0 "ck"
    (by decide)

/-- Claim C7, counterexample: the claim says every authentication failure
produces the same structured error category and message, but the
no-credential branch answers with message "Authentication required" while a
present-but-unverifiable bearer token answers with message "Invalid
authentication token" — the message reveals whether a credential was
supplied. Both share status 401 and code "UNAUTHORIZED". -/
theorem unauthorized_message_distinguishes_counterexample :
    (AuthMiddleware.verifyJWT (fun _ => none) ⟨none, none, none⟩
      (Cache.MemoryCache.empty AdminPayload) 0).response =
      some AuthMiddleware.unauthorizedRequired ∧
    (AuthMiddleware.verifyJWT (fun _ => none) ⟨none, none, some "Bearer x"⟩
      (Cache.MemoryCache.empty AdminPayload) 0).response =
      some AuthMiddleware.unauthorizedInvalid ∧
    AuthMiddleware.unauthorizedRequired.message ≠
      AuthMiddleware.unauthorizedInvalid.message := by
  refine ⟨?_, ?_, ?_⟩ <;> decide

/-- Claim C7, amended: every authentication failure of the resolver carries
the same status 401 and the same structured error code "UNAUTHORIZED", but
not a single uniform message — the message is one of exactly two texts,
"Authentication required" (no credential located) or "Invalid
authentication token" (a candidate token was present and failed), so the
outcome does reveal whether a credential source yielded a token. -/
theorem unauthorized_uniform_status_and_code_amended
    (verify : String → Option AdminPayload) (req : AuthMiddleware.Req)
    (cache : Cache.MemoryCache AdminPayload) (now : Int)
    (r : AuthMiddleware.ErrResponse)
    (h : (AuthMiddleware.verifyJWT verify req cache now).response = some r) :
    r.status = 401 ∧ r.code = "UNAUTHORIZED" ∧
    (r.message = "Authentication required" ∨
     r.message = "Invalid authentication token") := by
  rcases AuthMiddleware.verifyJWT_response_cases verify req cache now with h0 | h0 | h0 <;>
    rw [h0] at h
  · exact absurd h (by simp)
  · obtain rfl : r = AuthMiddleware.unauthorizedRequired := (Option.some.inj h).symm
    refine ⟨rfl, rfl, Or.inl rfl⟩
  · obtain rfl : r = AuthMiddleware.unauthorizedInvalid := (Option.some.inj h).symm
    refine ⟨rfl, rfl, Or.inr rfl⟩

/-- Claim C7, amended, witness: the no-credential rejection concretely has
status 401, code "UNAUTHORIZED" and one of the two messages. -/
theorem unauthorized_uniform_status_and_code_amended_witness :
    AuthMiddleware.unauthorizedRequired.status = 401 ∧
    AuthMiddleware.unauthorizedRequired.code = "UNAUTHORIZED" ∧
    (AuthMiddleware.unauthorizedRequired.message = "Authentication required" ∨
     AuthMiddleware.unauthorizedRequired.message = "Invalid authentication token") :=
  unauthorized_uniform_status_and_code_amended (fun _ => none) ⟨none, none, none⟩
    (Cache.MemoryCache.empty AdminPayload) 0 AuthMiddleware.unauthorizedRequired
    (by decide)

/-- Claim C9: the token-cache key is built from the last 10 characters of
the token only, so two distinct tokens sharing that suffix map to the same
key; within the cache TTL, a request bearing the second token through the
Authorization header is resolved to the payload cached for the first token
while the second token is never passed to the verifier (for an arbitrary
`verify` — including one that rejects every token — and with an empty
verification trace). -/
theorem token_cache_key_collision_bypasses_verification
    (verify : String → Option AdminPayload) (t1 t2 : String) (p : AdminPayload)
    (cache : Cache.MemoryCache AdminPayload) (now now' : Int)
    (hne : t1 ≠ t2) (hsuf : t1.takeRight 10 = t2.takeRight 10)
    (hns : ' ' ∉ t2.data) (ht2 : t2 ≠ "")
    (httl : now' ≤ now + AuthMiddleware.TOKEN_CACHE_TTL * 1000) :
    AuthMiddleware.getTokenCacheKey t1 = AuthMiddleware.getTokenCacheKey t2 ∧
    (AuthMiddleware.verifyJWT verify ⟨none, none, some ("Bearer " ++ t2)⟩
        (cache.set (AuthMiddleware.getTokenCacheKey t1) p
          AuthMiddleware.TOKEN_CACHE_TTL now) now').admin = some p ∧
    (AuthMiddleware.verifyJWT verify ⟨none, none, some ("Bearer " ++ t2)⟩
        (cache.set (AuthMiddleware.getTokenCacheKey t1) p
          AuthMiddleware.TOKEN_CACHE_TTL now) now').response = none ∧
    (AuthMiddleware.verifyJWT verify ⟨none, none, some ("Bearer " ++ t2)⟩
        (cache.set (AuthMiddleware.getTokenCacheKey t1) p
          AuthMiddleware.TOKEN_CACHE_TTL now) now').verifiedTokens = [] := by
  have hkey : AuthMiddleware.getTokenCacheKey t1 = AuthMiddleware.getTokenCacheKey t2 := by
    unfold AuthMiddleware.getTokenCacheKey
    rw [hsuf]
  have hget : (cache.set (AuthMiddleware.getTokenCacheKey t1) p
        AuthMiddleware.TOKEN_CACHE_TTL now).get (AuthMiddleware.getTokenCacheKey t2) now' =
      (some p, cache.set (AuthMiddleware.getTokenCacheKey t1) p
        AuthMiddleware.TOKEN_CACHE_TTL now) := by
    rw [← hkey, Cache.get_set_self]
    have hlt : ¬ (now + AuthMiddleware.TOKEN_CACHE_TTL * 1000 < now') := by omega
    simp [hlt]
  refine ⟨hkey, ?_⟩
  simp [AuthMiddleware.verifyJWT, Js.jsStartsWith_bearer,
    Js.splitSpaceGet1_bearer t2 hns, ht2, AuthMiddleware.resolveWithCache, hget]

/-- Claim C9, witness: the distinct tokens "XABCDEFGHIJ" and "YABCDEFGHIJ"
share their last 10 characters; with the payload cached for the first, a
bearer request with the second is authenticated unverified (the verifier
here rejects every token). -/
theorem token_cache_key_collision_bypasses_verification_witness :
    AuthMiddleware.getTokenCacheKey "XABCDEFGHIJ" =
      AuthMiddleware.getTokenCacheKey "YABCDEFGHIJ" ∧
    (AuthMiddleware.verifyJWT (fun _ => none) ⟨none, none, some ("Bearer " ++ "YABCDEFGHIJ")⟩
        ((Cache.MemoryCache.empty AdminPayload).set
          (AuthMiddleware.getTokenCacheKey "XABCDEFGHIJ") ⟨"admin", "1"⟩
          AuthMiddleware.TOKEN_CACHE_TTL 0) 0).admin = some ⟨"admin", "1"⟩ ∧
    (AuthMiddleware.verifyJWT (fun _ => none) ⟨none, none, some ("Bearer " ++ "YABCDEFGHIJ")⟩
        ((Cache.MemoryCache.empty AdminPayload).set
          (AuthMiddleware.getTokenCacheKey "XABCDEFGHIJ") ⟨"admin", "1"⟩
          AuthMiddleware.TOKEN_CACHE_TTL 0) 0).response = none ∧
    (AuthMiddleware.verifyJWT (fun _ => none) ⟨none, none, some ("Bearer " ++ "YABCDEFGHIJ")⟩
        ((Cache.MemoryCache.empty AdminPayload).set
          (AuthMiddleware.getTokenCacheKey "XABCDEFGHIJ") ⟨"admin", "1"⟩
          AuthMiddleware.TOKEN_CACHE_TTL 0) 0).verifiedTokens = [] :=
  token_cache_key_collision_bypasses_verification (fun _ => none)
    "XABCDEFGHIJ" "YABCDEFGHIJ" ⟨"admin", "1"⟩ (Cache.MemoryCache.empty AdminPayload)
    0 0 (by decide) (by decide) (by decide) (by decide) (by decide)

/-- Claim C8: the role-based access check defaults an absent role to
"admin": for any request whose token verifies to a payload with no role
field (here supplied via the signed cookie, the header being absent),
`requireRoles(allowedRoles)` computes the requester's role as "admin", so
whenever "admin" is among `allowedRoles` the request is allowed through
with that payload attached. -/
theorem requireRoles_absent_role_defaults_to_admin
    (allowedRoles : List String) (verify : String → Option RoleAuth.AuthPayload)
    (tok : String) (payload : RoleAuth.AuthPayload)
    (htok : tok ≠ "") (hverify : verify tok = some payload)
    (hrole : payload.role = none) (hallowed : "admin" ∈ allowedRoles) :
    RoleAuth.requireRoles allowedRoles verify none (some tok) =
      RoleAuth.Outcome.next payload := by
  have hc : allowedRoles.contains "admin" = true := by
    simpa using List.elem_eq_true_of_mem hallowed
  simp [RoleAuth.requireRoles, RoleAuth.verifyJWT, htok, hverify, hrole, hc, hallowed]

/-- Claim C8, witness: a verifier decoding the cookie token "tok" to a
payload carrying no role, with `allowedRoles = ["admin"]`, lets the request
through. -/
theorem requireRoles_absent_role_defaults_to_admin_witness :
    RoleAuth.requireRoles ["admin"]
      (fun t => if t = "tok" then some ⟨"1", "admin", none⟩ else none)
      none (some "tok") = RoleAuth.Outcome.next ⟨"1", "admin", none⟩ :=
  requireRoles_absent_role_defaults_to_admin ["admin"]
    (fun t => if t = "tok" then some ⟨"1", "admin", none⟩ else none)
    "tok" ⟨"1", "admin", none⟩ (by decide) (by decide) (by decide)
    (by decide)

/-- Claim C6: for every payload `p` and ttl `t > 0`, when the process-wide
`JWT_SECRET` is set to a non-empty value, the login route signs with exactly
that value (its `|| "secret_key"` fallback does not engage), the middleware
reads the same value, and a token issued for `p` under it verifies to `p`
unchanged at every instant strictly before the expiry instant and fails
with `ExpiredToken` at every instant strictly after it. -/
theorem codec_roundtrip_before_expiry_expired_after
    (s : String) (envSet : Option String) (p : AdminPayload) (t now now' : Int)
    (henv : envSet = some s) (hs : s ≠ "") (ht : 0 < t) :
    Codec.loginJwtSecret envSet = s ∧
    Codec.middlewareJwtSecret envSet = some s ∧
    (now' < now + t →
      Codec.verify (Codec.issue p (Codec.loginJwtSecret envSet) t now) s now' =
        .ok p) ∧
    (now + t < now' →
      Codec.verify (Codec.issue p (Codec.loginJwtSecret envSet) t now) s now' =
        .error .expiredToken) := by
  subst henv
  have hsec : Codec.loginJwtSecret (some s) = s := by
    simp [Codec.loginJwtSecret, hs]
  refine ⟨hsec, rfl, ?_, ?_⟩
  · intro h
    have hge : ¬ (now' ≥ now + t) := by omega
    simp [Codec.verify, Codec.issue, hsec, hge]
  · intro h
    have hge : now' ≥ now + t := by omega
    simp [Codec.verify, Codec.issue, hsec, hge]

/-- Claim C6, witness: with the environment secret "s3cret", a token issued
at time 0 with ttl 1800 for the payload ("admin", "1") verifies to that
payload at time 1799 and is ExpiredToken at time 1801. -/
theorem codec_roundtrip_witness :
    Codec.loginJwtSecret (some "s3cret") = "s3cret" ∧
    Codec.middlewareJwtSecret (some "s3cret") = some "s3cret" ∧
    Codec.verify (Codec.issue ⟨"admin", "1"⟩ (Codec.loginJwtSecret (some "s3cret")) 1800 0)
      "s3cret" 1799 = .ok ⟨"admin", "1"⟩ ∧
    Codec.verify (Codec.issue ⟨"admin", "1"⟩ (Codec.loginJwtSecret (some "s3cret")) 1800 0)
      "s3cret" 1801 = .error .expiredToken :=
  ⟨(codec_roundtrip_before_expiry_expired_after "s3cret" (some "s3cret") ⟨"admin", "1"⟩
      1800 0 1799 rfl (by decide) (by decide)).1,
   (codec_roundtrip_before_expiry_expired_after "s3cret" (some "s3cret") ⟨"admin", "1"⟩
      1800 0 1799 rfl (by decide) (by decide)).2.1,
   (codec_roundtrip_before_expiry_expired_after "s3cret" (some "s3cret") ⟨"admin", "1"⟩
      1800 0 1799 rfl (by decide) (by decide)).2.2.1 (by decide),
   (codec_roundtrip_before_expiry_expired_after "s3cret" (some "s3cret") ⟨"admin", "1"⟩
      1800 0 1801 rfl (by decide) (by decide)).2.2.2 (by decide)⟩

/-- Claim C4 concerns the cache-miss path of `GET /api/blogs/:id`, which the
spec requires to increment and read in a single transaction. In the code
the transaction contains only the increment and the select is a separate
later query, so a concurrent incrementer committing between the two makes
the returned record reflect more than this request's increment: from views
0, the handler returns views 2 where the mandated single-transaction
increment-then-read returns views 1. -/
theorem miss_path_select_outside_transaction :
    BlogRoutes.missIncrementThenRead [⟨"b1", "approved", 0⟩] "b1"
        (fun st => BlogRoutes.incrementViews st "b1") =
      ([⟨"b1", "approved", 2⟩], some ⟨"b1", "approved", 2⟩) ∧
    BlogRoutes.specSingleTxIncrementThenRead [⟨"b1", "approved", 0⟩] "b1" =
      ([⟨"b1", "approved", 1⟩], some ⟨"b1", "approved", 1⟩) ∧
    (BlogRoutes.missIncrementThenRead [⟨"b1", "approved", 0⟩] "b1"
        (fun st => BlogRoutes.incrementViews st "b1")).2 ≠
      (BlogRoutes.specSingleTxIncrementThenRead [⟨"b1", "approved", 0⟩] "b1").2 := by
  refine ⟨?_, ?_, ?_⟩ <;> decide

/-- Claim C5: on a cache hit the response carries the cached record with
views equal to the cached views plus 1, the cache at the moment the
response is sent is exactly the cache the handler started with (the
optimistic increment is never written to it), and the cache entry is
replaced only by the background refresh, with the authoritative record `u`
re-read from the store inside the refresh transaction. -/
theorem hit_path_optimistic_increment_display_only
    (s : BlogRoutes.Store) (cache : Cache.MemoryCache BlogRoutes.BlogRecord)
    (cachedBlog : BlogRoutes.BlogRecord) (id : String) (now : Int)
    (u : BlogRoutes.BlogRecord)
    (hu : BlogRoutes.selectApproved (BlogRoutes.incrementViews s id) id = some u) :
    (BlogRoutes.getByIdHit s cache cachedBlog id now).response =
      .ok { cachedBlog with views := cachedBlog.views + 1 } ∧
    (BlogRoutes.getByIdHit s cache cachedBlog id now).cacheAtRespond = cache ∧
    (BlogRoutes.getByIdHit s cache cachedBlog id now).storeAfter =
      BlogRoutes.incrementViews s id ∧
    (BlogRoutes.getByIdHit s cache cachedBlog id now).cacheAfter =
      cache.set (BlogRoutes.getBlogPostCacheKey id) u BlogRoutes.POST_CACHE_TTL now := by
  simp [BlogRoutes.getByIdHit, hu]

/-- Claim C5, witness: with the approved record "b1" at views 4 in the store
and cached at views 4, the hit response shows views 5, the cache is
untouched at response time, and the background refresh stores the re-read
record at views 5. -/
theorem hit_path_optimistic_increment_display_only_witness :
    (BlogRoutes.getByIdHit [⟨"b1", "approved", 4⟩]
        (Cache.MemoryCache.empty BlogRoutes.BlogRecord) ⟨"b1", "approved", 4⟩ "b1" 0).response =
      .ok ⟨"b1", "approved", 5⟩ ∧
    (BlogRoutes.getByIdHit [⟨"b1", "approved", 4⟩]
        (Cache.MemoryCache.empty BlogRoutes.BlogRecord) ⟨"b1", "approved", 4⟩ "b1" 0).cacheAtRespond =
      Cache.MemoryCache.empty BlogRoutes.BlogRecord ∧
    (BlogRoutes.getByIdHit [⟨"b1", "approved", 4⟩]
        (Cache.MemoryCache.empty BlogRoutes.BlogRecord) ⟨"b1", "approved", 4⟩ "b1" 0).storeAfter =
      BlogRoutes.incrementViews [⟨"b1", "approved", 4⟩] "b1" ∧
    (BlogRoutes.getByIdHit [⟨"b1", "approved", 4⟩]
        (Cache.MemoryCache.empty BlogRoutes.BlogRecord) ⟨"b1", "approved", 4⟩ "b1" 0).cacheAfter =
      (Cache.MemoryCache.empty BlogRoutes.BlogRecord).set
        (BlogRoutes.getBlogPostCacheKey "b1") ⟨"b1", "approved", 5⟩
        BlogRoutes.POST_CACHE_TTL 0 :=
  hit_path_optimistic_increment_display_only [⟨"b1", "approved", 4⟩]
    (Cache.MemoryCache.empty BlogRoutes.BlogRecord) ⟨"b1", "approved", 4⟩ "b1" 0
    ⟨"b1", "approved", 5⟩ (by decide)

/-- Claim C10: on the cache-miss path, when a record with the requested id
exists but its status is not "approved", the handler responds NotFound while
the views increment has already been committed to the store: the persisted
counter of that record grows by one, the cache is untouched, and the store
is exactly the incremented store. -/
theorem miss_path_not_found_still_increments
    (s : BlogRoutes.Store) (cache : Cache.MemoryCache BlogRoutes.BlogRecord)
    (id : String) (now : Int) (r : BlogRoutes.BlogRecord)
    (hfind : s.find? (fun x => x.id == id) = some r)
    (hnap : ∀ x ∈ s, x.id = id → x.status ≠ "approved") :
    (BlogRoutes.getByIdMiss s cache id now).2.2 = .notFound ∧
    (BlogRoutes.getByIdMiss s cache id now).1 = BlogRoutes.incrementViews s id ∧
    (BlogRoutes.getByIdMiss s cache id now).1.find? (fun x => x.id == id) =
      some { r with views := r.views + 1 } ∧
    (BlogRoutes.getByIdMiss s cache id now).2.1 = cache := by
  have hid : r.id = id := by
    have := List.find?_some hfind
    simpa using this
  have hfind2 : (BlogRoutes.incrementViews s id).find? (fun x => x.id == id) =
      some { r with views := r.views + 1 } := by
    unfold BlogRoutes.incrementViews
    rw [List.find?_map]
    have hcomp : ((fun x : BlogRoutes.BlogRecord => x.id == id) ∘
        (fun r : BlogRoutes.BlogRecord =>
          if r.id = id then { r with views := r.views + 1 } else r)) =
        fun x : BlogRoutes.BlogRecord => x.id == id := by
      funext y
      by_cases hy : y.id = id <;> simp [hy]
    rw [hcomp, hfind, Option.map_some']
    simp [hid]
  have hsel : BlogRoutes.selectApproved (BlogRoutes.incrementViews s id) id = none := by
    unfold BlogRoutes.selectApproved BlogRoutes.incrementViews
    refine List.find?_eq_none.2 ?_
    intro x hx
    rcases List.mem_map.1 hx with ⟨y, hy, rfl⟩
    by_cases hyid : y.id = id
    · have hst : y.status ≠ "approved" := hnap y hy hyid
      simp [hyid, hst]
    · simp [hyid]
  simp [BlogRoutes.getByIdMiss, BlogRoutes.missIncrementThenRead, hsel, hfind2]

/-- Claim C10, witness: store holding the single pending record "b1" at
views 5 — the request answers NotFound yet the store now holds "b1" at
views 6. -/
theorem miss_path_not_found_still_increments_witness :
    (BlogRoutes.getByIdMiss [⟨"b1", "pending", 5⟩]
        (Cache.MemoryCache.empty BlogRoutes.BlogRecord) "b1" 0).2.2 = .notFound ∧
    (BlogRoutes.getByIdMiss [⟨"b1", "pending", 5⟩]
        (Cache.MemoryCache.empty BlogRoutes.BlogRecord) "b1" 0).1 =
      BlogRoutes.incrementViews [⟨"b1", "pending", 5⟩] "b1" ∧
    (BlogRoutes.getByIdMiss [⟨"b1", "pending", 5⟩]
        (Cache.MemoryCache.empty BlogRoutes.BlogRecord) "b1" 0).1.find?
        (fun x => x.id == "b1") = some ⟨"b1", "pending", 6⟩ ∧
    (BlogRoutes.getByIdMiss [⟨"b1", "pending", 5⟩]
        (Cache.MemoryCache.empty BlogRoutes.BlogRecord) "b1" 0).2.1 =
      Cache.MemoryCache.empty BlogRoutes.BlogRecord :=
  miss_path_not_found_still_increments [⟨"b1", "pending", 5⟩]
    (Cache.MemoryCache.empty BlogRoutes.BlogRecord) "b1" 0 ⟨"b1", "pending", 5⟩
    (by decide) (by decide)
